import Mathlib

/-!
Verification development for the glow Host Runtime slice.

This file shallowly embeds the three source files of the repository:

* `src/lib/Backends/CPU/CPUBackend.cpp` - the CPU backend's operator support
  table `CPUBackend::isOpSupported`.
* `src/lib/IR/Instrs.cpp` - the IR-level instruction verifiers, in particular
  `QuantizeInst::verify` and `DequantizeInst::verify`.
* `src/lib/Runtime/HostManager/HostManager.cpp` - the HostManager state
  machine: `addNetwork`, `removeNetwork`, `runNetwork`, `dispatchNextRun`,
  `cleanupAddNetwork`, `exportMemoryCounters` and the completion callback.

Stateful C++ is modelled by explicit state passing over a `HostState`
structure; fallible operations return a `GlowResult`; side effects that the
claims talk about (executor pool creation/destruction, device eviction,
counter export) are reified as a `HostEvent` list.  Machine integers are
modelled as `Nat`, with an explicit `% 2 ^ 64` where the source does `uint64_t`
arithmetic that may wrap (the memory counters).  All definitions are
executable.
-/

set_option maxHeartbeats 4000000

namespace GlowSpec

/-- Element kinds of tensors (`ElemKind` in the source tree).  The constructors
used by the embedded code are transcribed; the enum in the repository has the
same inhabitants. -/
inductive ElemKind where
  | FloatTy
  | Float16Ty
  | Int8QTy
  | UInt8QTy
  | Int16QTy
  | Int32QTy
  | Int32ITy
  | Int64ITy
  | UInt8FusedQTy
  | BoolTy
deriving DecidableEq, Repr, Fintype

open ElemKind

/-- Modelled from the spec: `Type::isQuantizedType` is declared outside `src/`.
The spec distinguishes quantized element kinds (the `Q`-suffixed kinds) from
the float, index and bool kinds; e.g. `Convolution` is checked as "all-Float
when the input is not quantized". -/
def ElemKind.isQuantizedType : ElemKind → Bool
  | Int8QTy | UInt8QTy | Int16QTy | Int32QTy | UInt8FusedQTy => true
  | _ => false

/-- Node kinds appearing in the `switch` of `CPUBackend::isOpSupported`
(`Kinded::Kind::*NodeKind` in the source), plus a few kinds of the repository
that the switch does not mention (`FullyConnected`, `Relu`, `Clip`) so that the
`default: return false` arm is observable. -/
inductive NodeKind where
  | BatchedReduceMin
  | Add
  | Mul
  | Sub
  | Max
  | Min
  | CPUMaxSplat
  | BatchedReduceAdd
  | MatMul
  | AvgPool
  | AdaptiveAvgPool
  | MaxPool
  | ArgMax
  | ArgMin
  | ResizeNearest
  | ResizeBilinear
  | Save
  | Reshape
  | InsertTensor
  | Concat
  | Splat
  | Touch
  | Slice
  | SpaceToDepth
  | Div
  | Transpose
  | Flip
  | SparseLengthsSum
  | SparseLengthsWeightedSum
  | EmbeddingBag
  | SparseLengthsWeightedSumGrad
  | RowwiseQuantizedSparseLengthsWeightedSum
  | LengthsRangeFill
  | LengthsToRanges
  | IntLookupTable
  | RescaleQuantized
  | Pow
  | AvgPoolGrad
  | QuantizationProfile
  | CPUConvDKKC8
  | LocalResponseNormalization
  | LocalResponseNormalizationGrad
  | Log
  | Tanh
  | Sigmoid
  | Exp
  | Modulo
  | MaxPoolGrad
  | Convolution
  | ChannelwiseQuantizedConvolution
  | ConvTranspose
  | BatchedAdd
  | Gather
  | GatherRanges
  | ScatterData
  | Select
  | Not
  | And
  | Or
  | Xor
  | Abs
  | Neg
  | Floor
  | Ceil
  | Round
  | Sqrt
  | Rsqrt
  | Reciprocal
  | Sin
  | Cos
  | CmpEQ
  | CmpNEQ
  | CmpLT
  | CmpLTE
  | IsNaN
  | TopK
  | Quantize
  | Dequantize
  | SoftMax
  | CrossEntropyLoss
  | LengthsSum
  | EmbeddingBagByteRowwiseOffsets
  | FusedRowwiseQuantizedSparseLengthsWeightedSum
  | RowwiseQuantizedFullyConnected
  | SparseToDense
  | SoftMaxGrad
  | ConvolutionGrad
  | CrossEntropyLossGrad
  | TraceEvent
  | NonMaxSuppression
  | AudioSpectrogram
  | MFCC
  | ConvertTo
  | FullyConnected
  | Relu
  | Clip
deriving DecidableEq, Repr

/-- The per-node type information that `isOpSupported` consumes: the node kind
and the element kind of every input and output slot (`NodeInfo` in the
source). -/
structure NodeInfo where
  kind : NodeKind
  inTys : List ElemKind := []
  outTys : List ElemKind := []
deriving DecidableEq, Repr

/-- `NodeInfo::getInElemTy`.  Well-formed nodes only query slots that exist;
out-of-range queries return an arbitrary fixed kind. -/
def NodeInfo.getInElemTy (NI : NodeInfo) (i : Nat) : ElemKind :=
  NI.inTys.getD i ElemKind.FloatTy

/-- `NodeInfo::getOutElemTy`. -/
def NodeInfo.getOutElemTy (NI : NodeInfo) (i : Nat) : ElemKind :=
  NI.outTys.getD i ElemKind.FloatTy

/-- Modelled from the spec: `NodeInfo::allInputsAndOutputsHaveSameElemKind` is
declared outside `src/`.  Per the spec's operator-support table, it holds when
some single allowed element kind is shared by every input slot not listed in
`ignoreIn` and every output slot not listed in `ignoreOut`. -/
def NodeInfo.allInputsAndOutputsHaveSameElemKind (NI : NodeInfo)
    (allowedElemKinds : List ElemKind) (ignoreIn ignoreOut : List Nat) : Bool :=
  allowedElemKinds.any (fun k =>
    ((List.range NI.inTys.length).all (fun i =>
        ignoreIn.contains i || NI.getInElemTy i == k)) &&
    ((List.range NI.outTys.length).all (fun i =>
        ignoreOut.contains i || NI.getOutElemTy i == k)))

/-!
Operand slot indices of the node classes referenced by the switch.  The node
classes are generated outside `src/`; the indices follow the declaration order
of each node's operands in the repository (inputs first, in declaration order;
outputs separately, in declaration order).
-/

namespace MaxPoolNode

def ArgmaxIdx : Nat := 1

end MaxPoolNode

namespace ArgMaxNode

def ResultIdx : Nat := 0

end ArgMaxNode

namespace SparseLengthsSumNode

def IndicesIdx : Nat := 1

def LengthsIdx : Nat := 2

end SparseLengthsSumNode

namespace SparseLengthsWeightedSumNode

def IndicesIdx : Nat := 2

def LengthsIdx : Nat := 3

end SparseLengthsWeightedSumNode

namespace EmbeddingBagNode

def IndicesIdx : Nat := 2

def OffsetsIdx : Nat := 3

end EmbeddingBagNode

namespace SparseLengthsWeightedSumGradNode

def IndicesIdx : Nat := 2

def LengthsIdx : Nat := 3

def GradOfInputNamedIndicesIdx : Nat := 2

def GradOfInputNamedLengthsIdx : Nat := 3

end SparseLengthsWeightedSumGradNode

namespace RowwiseQuantizedSparseLengthsWeightedSumNode

def DataIdx : Nat := 0

def ScalesIdx : Nat := 1

def OffsetsIdx : Nat := 2

def WeightsIdx : Nat := 3

def IndicesIdx : Nat := 4

def LengthsIdx : Nat := 5

def ResultIdx : Nat := 0

end RowwiseQuantizedSparseLengthsWeightedSumNode

namespace MaxPoolGradNode

def OriginalOutputForArgmaxIdx : Nat := 3

def GradOfOriginalOutputNamedArgmaxIdx : Nat := 4

end MaxPoolGradNode

namespace ConvolutionNode

def InputIdx : Nat := 0

def FilterIdx : Nat := 1

def BiasIdx : Nat := 2

def ResultIdx : Nat := 0

end ConvolutionNode

namespace ChannelwiseQuantizedConvolutionNode

def InputIdx : Nat := 0

def FilterIdx : Nat := 1

def BiasIdx : Nat := 2

def FilterScalesIdx : Nat := 3

def FilterOffsetsIdx : Nat := 4

def BiasScalesIdx : Nat := 5

def BiasOffsetsIdx : Nat := 6

def ResultIdx : Nat := 0

end ChannelwiseQuantizedConvolutionNode

namespace BatchedAddNode

def BatchIdx : Nat := 0

def SliceIdx : Nat := 1

end BatchedAddNode

namespace GatherNode

def IndicesIdx : Nat := 1

end GatherNode

namespace GatherRangesNode

def RangesIdx : Nat := 1

def LengthsIdx : Nat := 1

end GatherRangesNode

namespace ScatterDataNode

def IndicesIdx : Nat := 1

end ScatterDataNode

namespace SelectNode

def CondIdx : Nat := 0

end SelectNode

namespace CmpEQNode

def ResultIdx : Nat := 0

end CmpEQNode

namespace IsNaNNode

def ResultIdx : Nat := 0

end IsNaNNode

namespace TopKNode

def IndicesIdx : Nat := 1

end TopKNode

namespace QuantizeNode

def InputIdx : Nat := 0

def ResultIdx : Nat := 0

end QuantizeNode

namespace DequantizeNode

def InputIdx : Nat := 0

def ResultIdx : Nat := 0

end DequantizeNode

namespace SoftMaxNode

def SelectedIdx : Nat := 1

end SoftMaxNode

namespace CrossEntropyLossNode

def LabelsIdx : Nat := 1

end CrossEntropyLossNode

namespace LengthsSumNode

def LengthsIdx : Nat := 1

end LengthsSumNode

namespace EmbeddingBagByteRowwiseOffsetsNode

def DataIdx : Nat := 0

def WeightsIdx : Nat := 1

def IndicesIdx : Nat := 2

def OffsetsIdx : Nat := 3

def ResultIdx : Nat := 0

end EmbeddingBagByteRowwiseOffsetsNode

namespace FusedRowwiseQuantizedSparseLengthsWeightedSumNode

def DataIdx : Nat := 0

def WeightsIdx : Nat := 1

def IndicesIdx : Nat := 2

def LengthsIdx : Nat := 3

def ResultIdx : Nat := 0

end FusedRowwiseQuantizedSparseLengthsWeightedSumNode

namespace RowwiseQuantizedFullyConnectedNode

def InputIdx : Nat := 0

def WeightsIdx : Nat := 1

def ScalesIdx : Nat := 2

def OffsetsIdx : Nat := 3

def BiasIdx : Nat := 4

def ResultIdx : Nat := 0

end RowwiseQuantizedFullyConnectedNode

namespace SparseToDenseNode

def IndicesIdx : Nat := 0

end SparseToDenseNode

namespace SoftMaxGradNode

def SelectedIdx : Nat := 1

def GradOfInputNamedSelectedIdx : Nat := 1

end SoftMaxGradNode

namespace ConvolutionGradNode

def GradOfInputNamedInputIdx : Nat := 0

end ConvolutionGradNode

namespace CrossEntropyLossGradNode

def LabelsIdx : Nat := 1

def GradOfInputNamedLabelsIdx : Nat := 1

end CrossEntropyLossGradNode

namespace TraceEventNode

def DataIdx : Nat := 0

end TraceEventNode

namespace NonMaxSuppressionNode

def BoxesIdx : Nat := 0

def ScoresIdx : Nat := 1

def IndicesIdx : Nat := 0

def NumberOfSelectedIndicesIdx : Nat := 1

end NonMaxSuppressionNode

namespace AudioSpectrogramNode

def InputIdx : Nat := 0

def SpectrogramIdx : Nat := 0

end AudioSpectrogramNode

namespace MFCCNode

def SpectrogramIdx : Nat := 0

def CoefficientsIdx : Nat := 0

end MFCCNode

namespace ConvertToNode

def InputIdx : Nat := 0

def ResultIdx : Nat := 0

end ConvertToNode

/-- `CPUBackend::isOpSupported` (src/lib/Backends/CPU/CPUBackend.cpp, lines
43-513), transcribed case by case from the `switch` on `NI.getKind()`.  Node
kinds without a `case` label fall to the `default: return false` arm. -/
def isOpSupported (NI : NodeInfo) : Bool :=
  match NI.kind with
  | .BatchedReduceMin =>
    NI.allInputsAndOutputsHaveSameElemKind [FloatTy, Int32ITy, Int64ITy] [] []
  | .Add | .Mul =>
    NI.allInputsAndOutputsHaveSameElemKind
      [FloatTy, Int8QTy, Int32ITy, Int64ITy] [] []
  | .Sub | .Max | .Min | .CPUMaxSplat | .BatchedReduceAdd | .MatMul
  | .AvgPool =>
    NI.allInputsAndOutputsHaveSameElemKind [FloatTy, Int8QTy] [] []
  | .AdaptiveAvgPool =>
    NI.allInputsAndOutputsHaveSameElemKind [FloatTy] [] []
  | .MaxPool =>
    NI.allInputsAndOutputsHaveSameElemKind [FloatTy, Int8QTy] []
        [MaxPoolNode.ArgmaxIdx] &&
    (NI.getOutElemTy MaxPoolNode.ArgmaxIdx == Int64ITy ||
     NI.getOutElemTy MaxPoolNode.ArgmaxIdx == Int32ITy)
  | .ArgMax | .ArgMin =>
    NI.allInputsAndOutputsHaveSameElemKind [FloatTy, Int8QTy] []
        [ArgMaxNode.ResultIdx] &&
    (NI.getOutElemTy ArgMaxNode.ResultIdx == Int64ITy ||
     NI.getOutElemTy ArgMaxNode.ResultIdx == Int32ITy)
  | .ResizeNearest | .ResizeBilinear =>
    NI.allInputsAndOutputsHaveSameElemKind
      [FloatTy, Int8QTy, Int32QTy, Int32ITy, Int64ITy] [] []
  | .Save | .Reshape =>
    NI.allInputsAndOutputsHaveSameElemKind
      [FloatTy, Int8QTy, Int32QTy, Int32ITy, Int64ITy, BoolTy] [] []
  | .InsertTensor | .Concat | .Splat | .Touch =>
    NI.allInputsAndOutputsHaveSameElemKind
      [FloatTy, Int8QTy, Int64ITy, Int32ITy, BoolTy] [] []
  | .Slice =>
    NI.allInputsAndOutputsHaveSameElemKind
      [FloatTy, Int8QTy, Int32QTy, Int32ITy, Int64ITy] [] []
  | .SpaceToDepth | .Div =>
    NI.allInputsAndOutputsHaveSameElemKind
      [FloatTy, Int8QTy, Int64ITy, Int32ITy] [] []
  | .Transpose =>
    NI.allInputsAndOutputsHaveSameElemKind
      [FloatTy, Int8QTy, Int64ITy, BoolTy] [] []
  | .Flip =>
    NI.allInputsAndOutputsHaveSameElemKind
      [FloatTy, Int8QTy, Int16QTy, Int32QTy, Int32ITy, Int64ITy, BoolTy] [] []
  | .SparseLengthsSum =>
    NI.allInputsAndOutputsHaveSameElemKind [FloatTy]
        [SparseLengthsSumNode.IndicesIdx, SparseLengthsSumNode.LengthsIdx] [] &&
    (NI.getInElemTy SparseLengthsSumNode.IndicesIdx == Int64ITy ||
     NI.getInElemTy SparseLengthsSumNode.IndicesIdx == Int32ITy) &&
    (NI.getInElemTy SparseLengthsSumNode.LengthsIdx == Int32ITy)
  | .SparseLengthsWeightedSum =>
    NI.allInputsAndOutputsHaveSameElemKind [FloatTy]
        [SparseLengthsWeightedSumNode.IndicesIdx,
         SparseLengthsWeightedSumNode.LengthsIdx] [] &&
    (NI.getInElemTy SparseLengthsWeightedSumNode.IndicesIdx == Int64ITy ||
     NI.getInElemTy SparseLengthsWeightedSumNode.IndicesIdx == Int32ITy) &&
    (NI.getInElemTy SparseLengthsWeightedSumNode.LengthsIdx == Int32ITy)
  | .EmbeddingBag =>
    NI.allInputsAndOutputsHaveSameElemKind [FloatTy]
        [EmbeddingBagNode.IndicesIdx, EmbeddingBagNode.OffsetsIdx] [] &&
    (NI.getInElemTy EmbeddingBagNode.IndicesIdx == Int64ITy) &&
    (NI.getInElemTy EmbeddingBagNode.OffsetsIdx == Int64ITy)
  | .SparseLengthsWeightedSumGrad =>
    NI.allInputsAndOutputsHaveSameElemKind [FloatTy]
        [SparseLengthsWeightedSumGradNode.IndicesIdx,
         SparseLengthsWeightedSumGradNode.LengthsIdx]
        [SparseLengthsWeightedSumGradNode.GradOfInputNamedIndicesIdx,
         SparseLengthsWeightedSumGradNode.GradOfInputNamedLengthsIdx] &&
    (NI.getInElemTy SparseLengthsWeightedSumGradNode.IndicesIdx == Int64ITy ||
     NI.getInElemTy SparseLengthsWeightedSumGradNode.IndicesIdx == Int32ITy) &&
    (NI.getInElemTy SparseLengthsWeightedSumGradNode.LengthsIdx == Int32ITy)
  | .RowwiseQuantizedSparseLengthsWeightedSum =>
    (NI.getInElemTy RowwiseQuantizedSparseLengthsWeightedSumNode.DataIdx ==
      UInt8QTy) &&
    (NI.getInElemTy RowwiseQuantizedSparseLengthsWeightedSumNode.ScalesIdx ==
      FloatTy) &&
    (NI.getInElemTy RowwiseQuantizedSparseLengthsWeightedSumNode.OffsetsIdx ==
      FloatTy) &&
    (NI.getInElemTy RowwiseQuantizedSparseLengthsWeightedSumNode.WeightsIdx ==
      FloatTy) &&
    (NI.getInElemTy RowwiseQuantizedSparseLengthsWeightedSumNode.IndicesIdx ==
      Int64ITy ||
     NI.getInElemTy RowwiseQuantizedSparseLengthsWeightedSumNode.IndicesIdx ==
      Int32ITy) &&
    (NI.getInElemTy RowwiseQuantizedSparseLengthsWeightedSumNode.LengthsIdx ==
      Int32ITy) &&
    (NI.getOutElemTy RowwiseQuantizedSparseLengthsWeightedSumNode.ResultIdx ==
      FloatTy)
  | .LengthsRangeFill | .LengthsToRanges =>
    NI.allInputsAndOutputsHaveSameElemKind [Int32ITy] [] []
  | .IntLookupTable | .RescaleQuantized =>
    NI.allInputsAndOutputsHaveSameElemKind [Int8QTy] [] []
  | .Pow | .AvgPoolGrad | .QuantizationProfile | .CPUConvDKKC8
  | .LocalResponseNormalization | .LocalResponseNormalizationGrad | .Log
  | .Tanh | .Sigmoid | .Exp =>
    NI.allInputsAndOutputsHaveSameElemKind [FloatTy] [] []
  | .Modulo =>
    NI.allInputsAndOutputsHaveSameElemKind [Int32ITy, Int64ITy] [] []
  | .MaxPoolGrad =>
    NI.allInputsAndOutputsHaveSameElemKind [FloatTy]
        [MaxPoolGradNode.OriginalOutputForArgmaxIdx,
         MaxPoolGradNode.GradOfOriginalOutputNamedArgmaxIdx] [] &&
    (NI.getInElemTy MaxPoolGradNode.OriginalOutputForArgmaxIdx == Int64ITy ||
     NI.getInElemTy MaxPoolGradNode.OriginalOutputForArgmaxIdx == Int32ITy) &&
    (NI.getInElemTy MaxPoolGradNode.GradOfOriginalOutputNamedArgmaxIdx ==
      Int64ITy ||
     NI.getInElemTy MaxPoolGradNode.GradOfOriginalOutputNamedArgmaxIdx ==
      Int32ITy)
  | .Convolution =>
    if !(NI.getInElemTy ConvolutionNode.InputIdx).isQuantizedType then
      NI.allInputsAndOutputsHaveSameElemKind [FloatTy] [] []
    else
      NI.allInputsAndOutputsHaveSameElemKind [Int8QTy]
          [ConvolutionNode.BiasIdx] [] &&
      (NI.getInElemTy ConvolutionNode.BiasIdx == Int8QTy ||
       NI.getInElemTy ConvolutionNode.BiasIdx == Int32QTy)
  | .ChannelwiseQuantizedConvolution =>
    (NI.getInElemTy ChannelwiseQuantizedConvolutionNode.InputIdx ==
      Int8QTy) &&
    (NI.getInElemTy ChannelwiseQuantizedConvolutionNode.FilterIdx ==
      Int8QTy) &&
    ((NI.getInElemTy ChannelwiseQuantizedConvolutionNode.BiasIdx ==
       Int8QTy) ||
     (NI.getInElemTy ChannelwiseQuantizedConvolutionNode.BiasIdx ==
       Int32QTy)) &&
    (NI.getInElemTy ChannelwiseQuantizedConvolutionNode.FilterScalesIdx ==
      FloatTy) &&
    (NI.getInElemTy ChannelwiseQuantizedConvolutionNode.FilterOffsetsIdx ==
      Int32ITy) &&
    (NI.getInElemTy ChannelwiseQuantizedConvolutionNode.BiasScalesIdx ==
      FloatTy) &&
    (NI.getInElemTy ChannelwiseQuantizedConvolutionNode.BiasOffsetsIdx ==
      Int32ITy) &&
    (NI.getOutElemTy ChannelwiseQuantizedConvolutionNode.ResultIdx ==
      Int8QTy)
  | .ConvTranspose =>
    NI.allInputsAndOutputsHaveSameElemKind [FloatTy] [] []
  | .BatchedAdd =>
    if !(NI.getInElemTy BatchedAddNode.BatchIdx).isQuantizedType then
      NI.allInputsAndOutputsHaveSameElemKind [FloatTy] [] []
    else
      NI.allInputsAndOutputsHaveSameElemKind [Int8QTy]
          [BatchedAddNode.SliceIdx] [] &&
      ((NI.getInElemTy BatchedAddNode.SliceIdx == Int8QTy) ||
       (NI.getInElemTy BatchedAddNode.SliceIdx == Int32QTy))
  | .Gather =>
    NI.allInputsAndOutputsHaveSameElemKind
        [FloatTy, Int8QTy, Int64ITy, Int32ITy] [GatherNode.IndicesIdx] [] &&
    ((NI.getInElemTy GatherNode.IndicesIdx == Int32ITy) ||
     (NI.getInElemTy GatherNode.IndicesIdx == Int64ITy))
  | .GatherRanges =>
    NI.allInputsAndOutputsHaveSameElemKind
        [FloatTy, Int8QTy, Int64ITy, Int32ITy] [GatherRangesNode.RangesIdx]
        [GatherRangesNode.LengthsIdx] &&
    ((NI.getInElemTy GatherRangesNode.RangesIdx ==
       NI.getOutElemTy GatherRangesNode.LengthsIdx) &&
     ((NI.getOutElemTy GatherRangesNode.LengthsIdx == Int32ITy) ||
      (NI.getOutElemTy GatherRangesNode.LengthsIdx == Int64ITy)))
  | .ScatterData =>
    NI.allInputsAndOutputsHaveSameElemKind [FloatTy, Int8QTy]
        [ScatterDataNode.IndicesIdx] [] &&
    (NI.getInElemTy ScatterDataNode.IndicesIdx == Int64ITy ||
     NI.getInElemTy ScatterDataNode.IndicesIdx == Int32ITy)
  | .Select =>
    NI.allInputsAndOutputsHaveSameElemKind [FloatTy, Int8QTy, Int32ITy]
        [SelectNode.CondIdx] [] &&
    (NI.getInElemTy SelectNode.CondIdx == BoolTy)
  | .Not | .And | .Or | .Xor =>
    NI.allInputsAndOutputsHaveSameElemKind [BoolTy] [] []
  | .Abs | .Neg | .Floor | .Ceil | .Round | .Sqrt | .Rsqrt | .Reciprocal
  | .Sin | .Cos =>
    NI.allInputsAndOutputsHaveSameElemKind [FloatTy] [] []
  | .CmpEQ | .CmpNEQ | .CmpLT | .CmpLTE =>
    NI.allInputsAndOutputsHaveSameElemKind
        [FloatTy, Int8QTy, Int32ITy, Int64ITy] [] [CmpEQNode.ResultIdx] &&
    (NI.getOutElemTy CmpEQNode.ResultIdx == BoolTy)
  | .IsNaN =>
    NI.allInputsAndOutputsHaveSameElemKind [FloatTy] []
        [IsNaNNode.ResultIdx] &&
    (NI.getOutElemTy IsNaNNode.ResultIdx == BoolTy)
  | .TopK =>
    NI.allInputsAndOutputsHaveSameElemKind [FloatTy, Int8QTy] []
        [TopKNode.IndicesIdx] &&
    (NI.getOutElemTy TopKNode.IndicesIdx == Int64ITy ||
     NI.getOutElemTy TopKNode.IndicesIdx == Int32ITy)
  | .Quantize =>
    (NI.getInElemTy QuantizeNode.InputIdx == FloatTy) &&
    ((NI.getOutElemTy QuantizeNode.ResultIdx == Int8QTy) ||
     (NI.getOutElemTy QuantizeNode.ResultIdx == Int32QTy))
  | .Dequantize =>
    (NI.getInElemTy DequantizeNode.InputIdx == Int8QTy) &&
    (NI.getOutElemTy DequantizeNode.ResultIdx == FloatTy)
  | .SoftMax =>
    NI.allInputsAndOutputsHaveSameElemKind [FloatTy]
        [SoftMaxNode.SelectedIdx] [] &&
    (NI.getInElemTy SoftMaxNode.SelectedIdx == Int64ITy ||
     NI.getInElemTy SoftMaxNode.SelectedIdx == Int32ITy)
  | .CrossEntropyLoss =>
    NI.allInputsAndOutputsHaveSameElemKind [FloatTy]
        [CrossEntropyLossNode.LabelsIdx] [] &&
    (NI.getInElemTy CrossEntropyLossNode.LabelsIdx == Int64ITy ||
     NI.getInElemTy CrossEntropyLossNode.LabelsIdx == Int32ITy)
  | .LengthsSum =>
    NI.allInputsAndOutputsHaveSameElemKind [FloatTy]
        [LengthsSumNode.LengthsIdx] [] &&
    (NI.getInElemTy LengthsSumNode.LengthsIdx == Int32ITy)
  | .EmbeddingBagByteRowwiseOffsets =>
    (NI.getInElemTy EmbeddingBagByteRowwiseOffsetsNode.DataIdx ==
      UInt8FusedQTy) &&
    (NI.getInElemTy EmbeddingBagByteRowwiseOffsetsNode.WeightsIdx ==
      FloatTy) &&
    (NI.getInElemTy EmbeddingBagByteRowwiseOffsetsNode.IndicesIdx ==
      Int64ITy) &&
    (NI.getInElemTy EmbeddingBagByteRowwiseOffsetsNode.OffsetsIdx ==
      Int64ITy) &&
    (NI.getOutElemTy EmbeddingBagByteRowwiseOffsetsNode.ResultIdx ==
      FloatTy)
  | .FusedRowwiseQuantizedSparseLengthsWeightedSum =>
    (NI.getInElemTy
        FusedRowwiseQuantizedSparseLengthsWeightedSumNode.DataIdx ==
      UInt8FusedQTy) &&
    (NI.getInElemTy
        FusedRowwiseQuantizedSparseLengthsWeightedSumNode.WeightsIdx ==
      FloatTy) &&
    ((NI.getInElemTy
         FusedRowwiseQuantizedSparseLengthsWeightedSumNode.IndicesIdx ==
       Int64ITy ||
      NI.getInElemTy
         FusedRowwiseQuantizedSparseLengthsWeightedSumNode.IndicesIdx ==
       Int32ITy)) &&
    (NI.getInElemTy
        FusedRowwiseQuantizedSparseLengthsWeightedSumNode.LengthsIdx ==
      Int32ITy) &&
    (NI.getOutElemTy
        FusedRowwiseQuantizedSparseLengthsWeightedSumNode.ResultIdx ==
      FloatTy)
  | .RowwiseQuantizedFullyConnected =>
    (NI.getInElemTy RowwiseQuantizedFullyConnectedNode.InputIdx ==
      Int8QTy) &&
    (NI.getInElemTy RowwiseQuantizedFullyConnectedNode.WeightsIdx ==
      Int8QTy) &&
    (NI.getInElemTy RowwiseQuantizedFullyConnectedNode.ScalesIdx ==
      FloatTy) &&
    (NI.getInElemTy RowwiseQuantizedFullyConnectedNode.OffsetsIdx ==
      Int32ITy) &&
    (NI.getInElemTy RowwiseQuantizedFullyConnectedNode.BiasIdx == Int8QTy ||
     NI.getInElemTy RowwiseQuantizedFullyConnectedNode.BiasIdx == Int32QTy) &&
    (NI.getOutElemTy RowwiseQuantizedFullyConnectedNode.ResultIdx ==
      Int8QTy)
  | .SparseToDense =>
    NI.allInputsAndOutputsHaveSameElemKind [FloatTy]
        [SparseToDenseNode.IndicesIdx] [] &&
    (NI.getInElemTy SparseToDenseNode.IndicesIdx == Int64ITy ||
     NI.getInElemTy SparseToDenseNode.IndicesIdx == Int32ITy)
  | .SoftMaxGrad =>
    NI.allInputsAndOutputsHaveSameElemKind [FloatTy]
        [SoftMaxGradNode.SelectedIdx]
        [SoftMaxGradNode.GradOfInputNamedSelectedIdx] &&
    (NI.getInElemTy SoftMaxGradNode.SelectedIdx == Int64ITy ||
     NI.getInElemTy SoftMaxGradNode.SelectedIdx == Int32ITy)
  | .ConvolutionGrad =>
    NI.allInputsAndOutputsHaveSameElemKind [FloatTy] []
        [ConvolutionGradNode.GradOfInputNamedInputIdx]
  | .CrossEntropyLossGrad =>
    NI.allInputsAndOutputsHaveSameElemKind [FloatTy]
        [CrossEntropyLossGradNode.LabelsIdx]
        [CrossEntropyLossGradNode.GradOfInputNamedLabelsIdx] &&
    (NI.getInElemTy CrossEntropyLossGradNode.LabelsIdx == Int64ITy) &&
    (NI.getOutElemTy CrossEntropyLossGradNode.GradOfInputNamedLabelsIdx ==
      Int64ITy)
  | .TraceEvent =>
    NI.getInElemTy TraceEventNode.DataIdx == Int64ITy
  | .NonMaxSuppression =>
    (NI.getInElemTy NonMaxSuppressionNode.BoxesIdx == FloatTy) &&
    (NI.getInElemTy NonMaxSuppressionNode.ScoresIdx == FloatTy) &&
    (NI.getOutElemTy NonMaxSuppressionNode.IndicesIdx == Int32ITy ||
     NI.getOutElemTy NonMaxSuppressionNode.IndicesIdx == Int64ITy) &&
    (NI.getOutElemTy NonMaxSuppressionNode.NumberOfSelectedIndicesIdx ==
      Int32ITy ||
     NI.getOutElemTy NonMaxSuppressionNode.NumberOfSelectedIndicesIdx ==
      Int64ITy)
  | .AudioSpectrogram =>
    (NI.getInElemTy AudioSpectrogramNode.InputIdx == FloatTy) &&
    (NI.getOutElemTy AudioSpectrogramNode.SpectrogramIdx == FloatTy)
  | .MFCC =>
    (NI.getInElemTy MFCCNode.SpectrogramIdx == FloatTy) &&
    (NI.getOutElemTy MFCCNode.CoefficientsIdx == FloatTy)
  | .ConvertTo =>
    ((NI.getInElemTy ConvertToNode.InputIdx == Int32ITy) &&
     (NI.getOutElemTy ConvertToNode.ResultIdx == FloatTy)) ||
    ((NI.getInElemTy ConvertToNode.InputIdx == BoolTy) &&
     (NI.getOutElemTy ConvertToNode.ResultIdx == FloatTy)) ||
    ((NI.getInElemTy ConvertToNode.InputIdx == Int64ITy) &&
     (NI.getOutElemTy ConvertToNode.ResultIdx == Int32ITy)) ||
    ((NI.getInElemTy ConvertToNode.InputIdx == Int32ITy) &&
     (NI.getOutElemTy ConvertToNode.ResultIdx == Int64ITy))
  | _ => false

/-- `CPUBackend::shouldLower` (src/lib/Backends/CPU/CPUBackend.cpp, lines
515-523). -/
def shouldLower (kind : NodeKind) : Bool :=
  match kind with
  | .Convolution | .SparseLengthsSum => false
  | _ => true

/-!
IR instruction verification (src/lib/IR/Instrs.cpp).  The verifiers assert;
each is embedded as the conjunction of its checks.
-/

/-- The type data of an IR operand that the quantization verifiers inspect:
element kind and dimensions. -/
structure IRValue where
  elemKind : ElemKind := ElemKind.FloatTy
  dims : List Nat := []
deriving DecidableEq, Repr

/-- `QuantizeInst::verify` (src/lib/IR/Instrs.cpp, lines 404-410): operand 0
(dest) must be `Int8QTy`, operand 1 (src) must be `FloatTy`, and both operands
must have the same dimensions. -/
def quantizeInstVerify (dest src : IRValue) : Bool :=
  dest.elemKind == Int8QTy && src.elemKind == FloatTy && dest.dims == src.dims

/-- `DequantizeInst::verify` (src/lib/IR/Instrs.cpp, lines 412-418): dest must
be `FloatTy`, src must be `Int8QTy`, same dimensions. -/
def dequantizeInstVerify (dest src : IRValue) : Bool :=
  dest.elemKind == FloatTy && src.elemKind == Int8QTy && dest.dims == src.dims

/-- `RescaleQuantizedInst::verify` (src/lib/IR/Instrs.cpp, lines 420-426). -/
def rescaleQuantizedInstVerify (dest src : IRValue) : Bool :=
  dest.elemKind == Int8QTy && src.elemKind == Int8QTy && dest.dims == src.dims

/-!
The HostManager runtime model (src/lib/Runtime/HostManager/HostManager.cpp).
-/

/-- Error codes surfaced by the embedded paths (`ErrorValue::ErrorCode`).
`UNKNOWN` stands for a propagated internal error without a runtime-specific
discriminant (optimizer, partitioner, provisioner, writer failures). -/
inductive ErrorCode where
  | RUNTIME_ERROR
  | RUNTIME_NET_NOT_FOUND
  | RUNTIME_NET_BUSY
  | RUNTIME_REQUEST_REFUSED
  | UNKNOWN
deriving DecidableEq, Repr

/-- The result of a fallible operation (glow's `Error`): success, or an error
carrying a code. -/
inductive GlowResult where
  | success
  | error (code : ErrorCode)
deriving DecidableEq, Repr

/-- One device's memory figures, as reported by `DeviceManager`
(`getMaximumMemory` / `getAvailableMemory`). -/
structure DeviceManager where
  maximumMemory : Nat := 0
  availableMemory : Nat := 0
deriving DecidableEq, Repr

/-- The three exported memory counters (`kDeviceMemoryUsed`,
`kDeviceMemoryAvailable`, `kDeviceMemoryMax`). -/
structure Counters where
  deviceMemoryUsed : Nat := 0
  deviceMemoryAvailable : Nat := 0
  deviceMemoryMax : Nat := 0
deriving DecidableEq, Repr

/-- A partitioned sub-function (`DAGNode`): its name and the devices it has
been loaded onto (`deviceRuntimeInfos`, keyed by DeviceID). -/
structure DAGNode where
  name : String := ""
  deviceRuntimeInfos : List Nat := []
deriving DecidableEq, Repr

/-- `NetworkData`: one registered network, keyed in `networks_` by the DAG
root's name. -/
structure NetworkData where
  rootName : String := ""
  nodes : List DAGNode := []
  refcount : Nat := 0
deriving DecidableEq, Repr

/-- `InferRequest` as far as admission/dispatch ordering is concerned. -/
structure InferRequest where
  networkName : String := ""
  priority : Nat := 0
  requestID : Nat := 0
deriving DecidableEq, Repr

/-- `HostConfig`. -/
structure HostConfig where
  executorThreads : Nat := 3
  maxActiveRequests : Nat := 48
  maxQueueSize : Nat := 100
deriving DecidableEq, Repr

/-- The HostManager state guarded by `networkLock_` and `inferQueueLock_`.
`inFlight` records requests that have been handed to the Executor by
`dispatchNextRun` and whose completion callback has not run yet. -/
structure HostState where
  networks : List (String × NetworkData) := []
  processingNetworks : List String := []
  inferQueue : List InferRequest := []
  inFlight : List InferRequest := []
  activeRequestCount : Nat := 0
  totalRequestCount : Nat := 0
  devices : List DeviceManager := []
  counters : Counters := {}
deriving DecidableEq, Repr

/-- Side effects reified for the claims: executor pool management, device
eviction, provisioner removal, and counter export. -/
inductive HostEvent where
  | createPool (root : String) (size : Nat)
  | freePool (root : String)
  | evictFunction (node : String) (device : Nat)
  | removeFunction (node : String)
  | exportCounters
deriving DecidableEq, Repr

/-- Lookup in the `networks_` map (modelled as an association list with unique
keys). -/
def lookupNet : List (String × NetworkData) → String → Option NetworkData
  | [], _ => none
  | (k, v) :: rest, name => if k = name then some v else lookupNet rest name

/-- `networks_.erase(iterator)`: remove the entry with the given key. -/
def eraseNet : List (String × NetworkData) → String → List (String × NetworkData)
  | [], _ => []
  | (k, v) :: rest, name =>
    if k = name then rest else (k, v) :: eraseNet rest name

/-- Apply `f` to the refcount of the entry with the given key
(`network->refcount++` / `--` through the pointer into the map). -/
def mapRefcount : List (String × NetworkData) → String → (Nat → Nat) →
    List (String × NetworkData)
  | [], _, _ => []
  | (k, v) :: rest, name, f =>
    if k = name then
      (k, { v with refcount := f v.refcount }) :: mapRefcount rest name f
    else
      (k, v) :: mapRefcount rest name f

/-- The refcount the map currently stores for `name` (0 if absent). -/
def refcountOf (s : HostState) (name : String) : Nat :=
  match lookupNet s.networks name with
  | some nd => nd.refcount
  | none => 0

/-- The `uint64_t` modulus. -/
def W64 : Nat := 18446744073709551616

/-- Accumulate a list of `uint64_t` values with wrapping addition, as the
`maxMem += ...` / `availableMem += ...` loop does. -/
def sumMod64 (xs : List Nat) : Nat :=
  xs.foldl (fun a x => (a + x) % W64) 0

/-- `HostManager::exportMemoryCounters` (HostManager.cpp, lines 159-169):
sum maximum and available memory over all devices and export
`used = maxMem - availableMem` (in `uint64_t` arithmetic), `available`, and
`max`. -/
def exportMemoryCounters (devices : List DeviceManager) : Counters :=
  let maxMem := sumMod64 (devices.map (fun d => d.maximumMemory))
  let availableMem := sumMod64 (devices.map (fun d => d.availableMemory))
  { deviceMemoryUsed := (maxMem + (W64 - availableMem)) % W64
    deviceMemoryAvailable := availableMem
    deviceMemoryMax := maxMem }

/-- `HostManager::cleanupAddNetwork` (HostManager.cpp, lines 176-181): erase
the given names from `processingNetworks_` and refresh the memory counters. -/
def cleanupAddNetwork (s : HostState) (names : List String) : HostState :=
  { s with
    processingNetworks :=
      s.processingNetworks.filter (fun n => !(names.contains n))
    counters := exportMemoryCounters s.devices }

/-- The name-reservation loop of `addNetwork` (HostManager.cpp, lines
205-222): walk the module's function names; on a collision with `networks_` or
`processingNetworks_` fail, reporting the names inserted so far (the caller
cleans them up); otherwise insert each name into `processingNetworks_`. -/
def reserveNames (s : HostState) (inserted : List String) :
    List String → Except (HostState × List String) HostState
  | [] => .ok s
  | n :: rest =>
    if (lookupNet s.networks n).isSome || s.processingNetworks.contains n then
      .error (s, inserted)
    else
      reserveNames
        { s with processingNetworks := s.processingNetworks ++ [n] }
        (inserted ++ [n]) rest

/-- The compilation-context fields that steer `addNetwork`'s control flow.
`skipOptimizations` stands for `backendSpecificNodeInfo.size() > 0`;
`profileMode` for `precisionConfig.quantMode == QuantizationMode::Profile`. -/
structure CompilationContext where
  skipOptimizations : Bool := false
  enableP2P : Bool := false
  enableDRT : Bool := false
  profileMode : Bool := false
  delayAndRecordConstantModification : Bool := false
  serializeCompiledDAG : Bool := false
  skipModuleStrip : Bool := false
deriving DecidableEq, Repr

/-- The environment of one `addNetwork` call: the module's function names, the
DAG roots the partitioner would produce, and which internal step (if any)
fails.  `constFoldVerifyFails` covers the `RETURN_ERR_IF_NOT` checks of the
delayed-constant-folding block, including the post-folding backend
verification. -/
structure AddEnv where
  functionNames : List String := []
  dagRoots : List String := []
  optimizeFails : Bool := false
  partitionFails : Bool := false
  profileDeviceInitFails : Bool := false
  constFoldVerifyFails : Bool := false
  serializeFails : Bool := false
  provisionFails : Bool := false
deriving DecidableEq, Repr

/-- The partitioner context count chosen by `addNetwork` (HostManager.cpp,
lines 279-283): `maxActiveRequests` when P2P or DRT is enabled, else 2. -/
def partitionerContextCount (cfg : HostConfig) (cctx : CompilationContext) :
    Nat :=
  if cctx.enableP2P || cctx.enableDRT then cfg.maxActiveRequests else 2

/-- The pool size `addNetwork` passes to `executor_->createPool` for every DAG
root (HostManager.cpp, line 390): always `config_.maxActiveRequests`. -/
def executorPoolSize (cfg : HostConfig) : Nat :=
  cfg.maxActiveRequests

/-- The executor pool size as the spec's Executor section words it (the
refinement target for the pool-size claim): `maxActiveRequests` when P2P or
DRT is enabled, else the small constant 2. -/
def specClaimedPoolSize (cfg : HostConfig) (p2p drt : Bool) : Nat :=
  if p2p || drt then cfg.maxActiveRequests else 2

/-- `HostManager::addNetwork` (HostManager.cpp, lines 183-412), with the
module-independent steps (option merge, device-info snapshot) elided because
they do not touch the embedded state.  Control flow in source order:
name reservation (cleanup on collision); pre-partition optimization (cleanup
on error); partition (cleanup on error); profile-mode precondition and device
re-init (`return` / `RETURN_IF_ERR` without cleanup); delayed constant folding
and backend verification (`RETURN_ERR_IF_NOT` without cleanup); DAG
serialization (`RETURN_IF_ERR` without cleanup); provision (cleanup on error);
then pool creation, publication into `networks_`, and cleanup on success. -/
def addNetwork (cfg : HostConfig) (cctx : CompilationContext) (env : AddEnv)
    (s : HostState) : GlowResult × HostState × List HostEvent :=
  match reserveNames s [] env.functionNames with
  | .error (s1, inserted) =>
    (.error .RUNTIME_ERROR, cleanupAddNetwork s1 inserted, [])
  | .ok s1 =>
    if !cctx.skipOptimizations && env.optimizeFails then
      (.error .UNKNOWN, cleanupAddNetwork s1 env.functionNames, [])
    else if env.partitionFails then
      (.error .UNKNOWN, cleanupAddNetwork s1 env.functionNames, [])
    else if cctx.profileMode && !s1.networks.isEmpty then
      (.error .RUNTIME_ERROR, s1, [])
    else if cctx.profileMode && env.profileDeviceInitFails then
      (.error .UNKNOWN, s1, [])
    else if cctx.delayAndRecordConstantModification &&
        env.constFoldVerifyFails then
      (.error .UNKNOWN, s1, [])
    else if cctx.serializeCompiledDAG && env.serializeFails then
      (.error .UNKNOWN, s1, [])
    else if env.provisionFails then
      (.error .UNKNOWN, cleanupAddNetwork s1 env.functionNames, [])
    else
      let poolEvents := env.dagRoots.map
        (fun r => HostEvent.createPool r (executorPoolSize cfg))
      let s2 := { s1 with
        networks := s1.networks ++ env.dagRoots.map
          (fun r => (r, { rootName := r, nodes := [], refcount := 0 })) }
      (.success, cleanupAddNetwork s2 env.functionNames, poolEvents)

/-- `HostManager::removeNetwork` (HostManager.cpp, lines 414-455).  In source
order: unknown name succeeds immediately; a name in `processingNetworks_`
or with outstanding runs returns `RUNTIME_NET_BUSY`; otherwise the executor
pool is freed, every node is evicted from its devices and removed from the
Provisioner, the entry is erased, and the memory counters are refreshed. -/
def removeNetwork (s : HostState) (name : String) :
    GlowResult × HostState × List HostEvent :=
  match lookupNet s.networks name with
  | none => (.success, s, [])
  | some nd =>
    if s.processingNetworks.contains name then
      (.error .RUNTIME_NET_BUSY, s, [])
    else if nd.refcount ≠ 0 then
      (.error .RUNTIME_NET_BUSY, s, [])
    else
      let evictEvents := nd.nodes.flatMap (fun node =>
        node.deviceRuntimeInfos.map
          (fun d => HostEvent.evictFunction node.name d) ++
        [HostEvent.removeFunction node.name])
      (.success,
       { s with
         networks := eraseNet s.networks name
         counters := exportMemoryCounters s.devices },
       HostEvent.freePool nd.rootName :: evictEvents ++
         [HostEvent.exportCounters])

/-- Modelled from the spec: the `InferRequest` comparator of the admission
priority queue is declared outside `src/`.  Per the spec, the queue is ordered
by `priority` descending, then `requestID` ascending (FIFO tie-break):
`a` dispatches before `b` when `a` has the larger priority, or equal priority
and the smaller `requestID`. -/
def InferRequest.dispatchBefore (a b : InferRequest) : Bool :=
  decide (b.priority < a.priority) ||
    ((a.priority == b.priority) && decide (a.requestID < b.requestID))

/-- Select the best request (under `dispatchBefore`) among `r` and `xs`,
returning it together with the remaining requests.  This is the pure
counterpart of `inferQueue_.top()` / `inferQueue_.pop()`. -/
def selectBest (r : InferRequest) :
    List InferRequest → InferRequest × List InferRequest
  | [] => (r, [])
  | x :: xs =>
    if InferRequest.dispatchBefore x r then
      ((selectBest x xs).1, r :: (selectBest x xs).2)
    else
      ((selectBest r xs).1, x :: (selectBest r xs).2)

/-- Pop the best request of the queue, if any. -/
def popBest : List InferRequest → Option (InferRequest × List InferRequest)
  | [] => none
  | x :: xs => some (selectBest x xs)

/-- Repeatedly pop the best request; `fuel` bounds the recursion (`drainQueue`
below instantiates it with the queue length, which is exact). -/
def drainQueueFuel : Nat → List InferRequest → List InferRequest
  | 0, _ => []
  | _ + 1, [] => []
  | fuel + 1, x :: xs =>
    (selectBest x xs).1 :: drainQueueFuel fuel (selectBest x xs).2

/-- The order in which `dispatchNextRun` drains a queue when no new requests
arrive. -/
def drainQueue (q : List InferRequest) : List InferRequest :=
  drainQueueFuel q.length q

/-- `HostManager::dispatchNextRun` (HostManager.cpp, lines 536-589), state
part: pop the top request and hand it to the Executor (`inFlight`), or, when
the queue is empty, decrement `activeRequestCount_` so new requests can
launch. -/
def dispatchNextRun (s : HostState) : HostState :=
  match popBest s.inferQueue with
  | none => { s with activeRequestCount := s.activeRequestCount - 1 }
  | some (r, rest) =>
    { s with inferQueue := rest, inFlight := s.inFlight ++ [r] }

/-- The completion lambda installed by `dispatchNextRun` (HostManager.cpp,
lines 566-588): decrement the network's refcount if the network still exists,
update stats, invoke the user callback, then tail-call `dispatchNextRun`.  The
refcount decrement happens before the user callback is invoked. -/
def executorCompletion (s : HostState) (name : String) : HostState :=
  let s1 :=
    match lookupNet s.networks name with
    | some _ => { s with networks := mapRefcount s.networks name (· - 1) }
    | none => s
  dispatchNextRun s1

/-- The outcome of one `runNetwork` call: the callback was invoked inline with
an error, or the request was put on the admission queue (its callback fires
from the completion lambda later). -/
inductive RunOutcome where
  | inlineError (code : ErrorCode)
  | enqueued
deriving DecidableEq, Repr

/-- `HostManager::runNetwork` (HostManager.cpp, lines 591-658).  In source
order: take a fresh run identifier from `totalRequestCount_`; look the network
up (absent: callback inline with `RUNTIME_NET_NOT_FOUND`); increment its
refcount; if the queue already holds `maxQueueSize` requests, decrement the
refcount back and callback inline with `RUNTIME_REQUEST_REFUSED`; otherwise
push the request; then increment `activeRequestCount_` and either call
`dispatchNextRun` (pre-increment value below `maxActiveRequests`) or undo the
increment. -/
def runNetwork (cfg : HostConfig) (s : HostState) (name : String)
    (priority : Nat) : RunOutcome × HostState :=
  let currentRun := s.totalRequestCount
  let s0 := { s with totalRequestCount := currentRun + 1 }
  match lookupNet s0.networks name with
  | none => (.inlineError .RUNTIME_NET_NOT_FOUND, s0)
  | some _ =>
    let s1 := { s0 with networks := mapRefcount s0.networks name (· + 1) }
    if cfg.maxQueueSize ≤ s1.inferQueue.length then
      (.inlineError .RUNTIME_REQUEST_REFUSED,
       { s1 with networks := mapRefcount s1.networks name (· - 1) })
    else
      let s2 := { s1 with
        inferQueue := s1.inferQueue ++
          [{ networkName := name, priority := priority,
             requestID := currentRun }] }
      if s2.activeRequestCount < cfg.maxActiveRequests then
        (.enqueued,
         dispatchNextRun
           { s2 with activeRequestCount := s2.activeRequestCount + 1 })
      else
        (.enqueued, s2)
/-!
Helper lemmas.
-/

theorem lookupNet_mapRefcount (nets : List (String × NetworkData))
    (name : String) (f : Nat → Nat) :
    lookupNet (mapRefcount nets name f) name =
      (lookupNet nets name).map
        (fun nd => { nd with refcount := f nd.refcount }) := by
  induction nets with
  | nil => rfl
  | cons p rest ih =>
    obtain ⟨k, v⟩ := p
    by_cases h : k = name
    · simp [mapRefcount, lookupNet, h]
    · simp [mapRefcount, lookupNet, h, ih]

theorem dispatchNextRun_networks (s : HostState) :
    (dispatchNextRun s).networks = s.networks := by
  cases h : popBest s.inferQueue with
  | none => simp [dispatchNextRun, h]
  | some p =>
    obtain ⟨r, rest⟩ := p
    simp [dispatchNextRun, h]

theorem refcountOf_dispatchNextRun (s : HostState) (name : String) :
    refcountOf (dispatchNextRun s) name = refcountOf s name := by
  unfold refcountOf
  rw [dispatchNextRun_networks]

theorem executorCompletion_refcount (s : HostState) (name : String)
    (nd : NetworkData) (h : lookupNet s.networks name = some nd) :
    refcountOf (executorCompletion s name) name = nd.refcount - 1 := by
  have h1 : executorCompletion s name =
      dispatchNextRun
        { s with networks := mapRefcount s.networks name (· - 1) } := by
    unfold executorCompletion
    rw [h]
  rw [h1, refcountOf_dispatchNextRun]
  unfold refcountOf
  rw [lookupNet_mapRefcount, h]
  rfl

theorem dispatchBefore_irrefl (a : InferRequest) :
    InferRequest.dispatchBefore a a = false := by
  simp [InferRequest.dispatchBefore]

theorem dispatchBefore_asymm (a b : InferRequest) :
    InferRequest.dispatchBefore a b = true →
      InferRequest.dispatchBefore b a = false := by
  simp [InferRequest.dispatchBefore]
  omega

theorem dispatchBefore_trans (a b c : InferRequest) :
    InferRequest.dispatchBefore a b = true →
    InferRequest.dispatchBefore b c = true →
    InferRequest.dispatchBefore a c = true := by
  simp [InferRequest.dispatchBefore]
  omega

theorem selectBest_cons_pos (r x : InferRequest) (xs : List InferRequest)
    (h : InferRequest.dispatchBefore x r = true) :
    selectBest r (x :: xs) =
      ((selectBest x xs).1, r :: (selectBest x xs).2) := by
  simp [selectBest, h]

theorem selectBest_cons_neg (r x : InferRequest) (xs : List InferRequest)
    (h : InferRequest.dispatchBefore x r = false) :
    selectBest r (x :: xs) =
      ((selectBest r xs).1, x :: (selectBest r xs).2) := by
  simp [selectBest, h]

theorem selectBest_snd_length (xs : List InferRequest) (r : InferRequest) :
    (selectBest r xs).2.length = xs.length := by
  induction xs generalizing r with
  | nil => rfl
  | cons x xs ih =>
    cases h : InferRequest.dispatchBefore x r with
    | true =>
      rw [selectBest_cons_pos _ _ _ h]
      simp [ih]
    | false =>
      rw [selectBest_cons_neg _ _ _ h]
      simp [ih]

theorem selectBest_fst_choice (xs : List InferRequest) (r : InferRequest) :
    (selectBest r xs).1 = r ∨ (selectBest r xs).1 ∈ xs := by
  induction xs generalizing r with
  | nil => exact Or.inl rfl
  | cons x xs ih =>
    cases h : InferRequest.dispatchBefore x r with
    | true =>
      rw [selectBest_cons_pos _ _ _ h]
      rcases ih x with h1 | h1
      · exact Or.inr (by simp [h1])
      · exact Or.inr (List.mem_cons_of_mem _ h1)
    | false =>
      rw [selectBest_cons_neg _ _ _ h]
      rcases ih r with h1 | h1
      · exact Or.inl h1
      · exact Or.inr (List.mem_cons_of_mem _ h1)

theorem selectBest_snd_mem (xs : List InferRequest) (r y : InferRequest) :
    y ∈ (selectBest r xs).2 → y = r ∨ y ∈ xs := by
  induction xs generalizing r with
  | nil => intro hy; simp [selectBest] at hy
  | cons x xs ih =>
    cases h : InferRequest.dispatchBefore x r with
    | true =>
      rw [selectBest_cons_pos _ _ _ h]
      intro hy
      rcases List.mem_cons.mp hy with h1 | h1
      · exact Or.inl h1
      · rcases ih x h1 with h2 | h2
        · exact Or.inr (by simp [h2])
        · exact Or.inr (List.mem_cons_of_mem _ h2)
    | false =>
      rw [selectBest_cons_neg _ _ _ h]
      intro hy
      rcases List.mem_cons.mp hy with h1 | h1
      · exact Or.inr (by simp [h1])
      · rcases ih r h1 with h2 | h2
        · exact Or.inl h2
        · exact Or.inr (List.mem_cons_of_mem _ h2)

theorem selectBest_fst_maximal (xs : List InferRequest) (r : InferRequest) :
    (selectBest r xs).1 = r ∨
      InferRequest.dispatchBefore (selectBest r xs).1 r = true := by
  induction xs generalizing r with
  | nil => exact Or.inl rfl
  | cons x xs ih =>
    cases h : InferRequest.dispatchBefore x r with
    | true =>
      rw [selectBest_cons_pos _ _ _ h]
      rcases ih x with h1 | h1
      · refine Or.inr ?_
        show InferRequest.dispatchBefore (selectBest x xs).1 r = true
        rw [h1]
        exact h
      · exact Or.inr (dispatchBefore_trans _ _ _ h1 h)
    | false =>
      rw [selectBest_cons_neg _ _ _ h]
      exact ih r

theorem selectBest_not_beaten (xs : List InferRequest) (r y : InferRequest) :
    (y = r ∨ y ∈ xs) →
      InferRequest.dispatchBefore y (selectBest r xs).1 = false := by
  induction xs generalizing r with
  | nil =>
    rintro (h1 | h1)
    · rw [h1]
      exact dispatchBefore_irrefl r
    · simp at h1
  | cons x xs ih =>
    intro hmem
    cases h : InferRequest.dispatchBefore x r with
    | true =>
      rw [selectBest_cons_pos _ _ _ h]
      show InferRequest.dispatchBefore y (selectBest x xs).1 = false
      rcases hmem with h1 | h1
      · -- y is the pivot r, which already lost to x; x in turn does not beat
        -- the best of (x :: xs), so neither does r.
        rw [h1]
        cases hyb : InferRequest.dispatchBefore r (selectBest x xs).1 with
        | false => rfl
        | true =>
          rcases selectBest_fst_maximal xs x with h2 | h2
          · rw [h2] at hyb
            have h3 := dispatchBefore_asymm _ _ h
            rw [hyb] at h3
            cases h3
          · have h3 := dispatchBefore_trans _ _ _ hyb h2
            have h4 := dispatchBefore_asymm _ _ h
            rw [h3] at h4
            cases h4
      · rcases List.mem_cons.mp h1 with h2 | h2
        · exact ih x (Or.inl h2)
        · exact ih x (Or.inr h2)
    | false =>
      rw [selectBest_cons_neg _ _ _ h]
      show InferRequest.dispatchBefore y (selectBest r xs).1 = false
      rcases hmem with h1 | h1
      · exact ih r (Or.inl h1)
      · rcases List.mem_cons.mp h1 with h2 | h2
        · -- y is the head x, which lost to the pivot r; the best is r itself
          -- or beats r, so y does not beat it.
          cases hyb : InferRequest.dispatchBefore y (selectBest r xs).1 with
          | false => rfl
          | true =>
            rcases selectBest_fst_maximal xs r with h3 | h3
            · rw [h3] at hyb
              rw [h2] at hyb
              rw [hyb] at h
              cases h
            · have h4 := dispatchBefore_trans _ _ _ hyb h3
              rw [h2] at h4
              rw [h4] at h
              cases h
        · exact ih r (Or.inr h2)

theorem popBest_some_length (q : List InferRequest) (r : InferRequest)
    (rest : List InferRequest) (h : popBest q = some (r, rest)) :
    rest.length + 1 = q.length := by
  cases q with
  | nil => simp [popBest] at h
  | cons x xs =>
    simp [popBest] at h
    have hl := selectBest_snd_length xs x
    rw [h] at hl
    simp at hl ⊢
    omega

theorem popBest_some_best (q : List InferRequest) (r : InferRequest)
    (rest : List InferRequest) (h : popBest q = some (r, rest)) :
    ∀ y ∈ rest, InferRequest.dispatchBefore y r = false := by
  cases q with
  | nil => simp [popBest] at h
  | cons x xs =>
    simp [popBest] at h
    intro y hy
    have h1 : y ∈ (selectBest x xs).2 := by
      rw [h]
      exact hy
    have h2 := selectBest_snd_mem xs x y h1
    have h3 := selectBest_not_beaten xs x y h2
    rw [h] at h3
    exact h3

theorem dispatchNextRun_queue_length (s : HostState) :
    (dispatchNextRun s).inferQueue.length ≤ s.inferQueue.length := by
  cases h : popBest s.inferQueue with
  | none => simp [dispatchNextRun, h]
  | some p =>
    obtain ⟨r, rest⟩ := p
    have := popBest_some_length _ _ _ h
    simp [dispatchNextRun, h]
    omega

theorem drainQueueFuel_mem (fuel : Nat) (q : List InferRequest)
    (y : InferRequest) : y ∈ drainQueueFuel fuel q → y ∈ q := by
  induction fuel generalizing q with
  | zero => intro h; simp [drainQueueFuel] at h
  | succ n ih =>
    cases q with
    | nil => intro h; simp [drainQueueFuel] at h
    | cons x xs =>
      intro h
      simp only [drainQueueFuel] at h
      rcases List.mem_cons.mp h with h1 | h1
      · rcases selectBest_fst_choice xs x with h2 | h2
        · rw [h1, h2]
          simp
        · rw [h1]
          exact List.mem_cons_of_mem _ h2
      · have h2 := ih _ h1
        rcases selectBest_snd_mem xs x y h2 with h3 | h3
        · rw [h3]
          simp
        · exact List.mem_cons_of_mem _ h3

theorem drainQueueFuel_sorted (p0 : Nat) (fuel : Nat) :
    ∀ q : List InferRequest, (∀ x ∈ q, x.priority = p0) →
      (drainQueueFuel fuel q).Pairwise
        (fun a b => a.requestID ≤ b.requestID) := by
  induction fuel with
  | zero => intro q hq; simp [drainQueueFuel]
  | succ n ih =>
    intro q hq
    cases q with
    | nil => simp [drainQueueFuel]
    | cons x xs =>
      have hrest : ∀ y ∈ (selectBest x xs).2, y.priority = p0 := by
        intro y hy
        rcases selectBest_snd_mem xs x y hy with h2 | h2
        · rw [h2]
          exact hq x (by simp)
        · exact hq y (List.mem_cons_of_mem _ h2)
      simp only [drainQueueFuel]
      refine List.Pairwise.cons ?_ (ih _ hrest)
      intro y hy
      have hyq := drainQueueFuel_mem n _ y hy
      have hyp : y.priority = p0 := hrest y hyq
      have hfst : (selectBest x xs).1.priority = p0 := by
        rcases selectBest_fst_choice xs x with h1 | h1
        · rw [h1]
          exact hq x (by simp)
        · exact hq _ (List.mem_cons_of_mem _ h1)
      have h3 : InferRequest.dispatchBefore y (selectBest x xs).1 = false :=
        selectBest_not_beaten xs x y (selectBest_snd_mem xs x y hyq)
      simp [InferRequest.dispatchBefore] at h3
      omega

theorem addNetwork_events (cfg : HostConfig) (cctx : CompilationContext)
    (env : AddEnv) (s : HostState) :
    (addNetwork cfg cctx env s).2.2 = [] ∨
    (addNetwork cfg cctx env s).2.2 =
      env.dagRoots.map
        (fun r => HostEvent.createPool r (executorPoolSize cfg)) := by
  unfold addNetwork
  cases hres : reserveNames s [] env.functionNames with
  | error p =>
    obtain ⟨s1, inserted⟩ := p
    left
    rfl
  | ok s1 =>
    split_ifs <;> simp <;> split_ifs <;> simp

theorem sumMod64_lt (xs : List Nat) : sumMod64 xs < W64 := by
  have h : ∀ a : Nat, a < W64 →
      xs.foldl (fun a x => (a + x) % W64) a < W64 := by
    induction xs with
    | nil => intro a ha; simpa using ha
    | cons x xs ih =>
      intro a ha
      simp only [List.foldl_cons]
      exact ih _ (Nat.mod_lt _ (by norm_num [W64]))
  exact h 0 (by norm_num [W64])

/-!
Claim theorems.
-/

/-- Claim C1: every `runNetwork` invocation contributes a net refcount change
of zero to the target network by the time its callback has been invoked.  The
not-found path performs no increment and the queue-full path decrements the
refcount it just incremented before invoking the callback inline, so on both
inline paths the refcount is unchanged.  The enqueued path increments the
refcount by exactly one, and the completion callback (which performs its
single decrement before invoking the user callback) restores it. -/
theorem runNetwork_refcount_balanced (cfg : HostConfig) (s : HostState)
    (name : String) (prio : Nat) :
    ((runNetwork cfg s name prio).1 ≠ RunOutcome.enqueued →
        refcountOf (runNetwork cfg s name prio).2 name = refcountOf s name) ∧
    ((runNetwork cfg s name prio).1 = RunOutcome.enqueued →
        refcountOf (runNetwork cfg s name prio).2 name =
            refcountOf s name + 1 ∧
          refcountOf (executorCompletion (runNetwork cfg s name prio).2 name)
              name = refcountOf s name) := by
  cases h : lookupNet s.networks name with
  | none =>
    constructor
    · intro _
      simp [runNetwork, h, refcountOf]
    · intro hout
      simp [runNetwork, h] at hout
  | some nd =>
    by_cases hq : cfg.maxQueueSize ≤ s.inferQueue.length
    · constructor
      · intro _
        simp [runNetwork, h, hq, refcountOf, lookupNet_mapRefcount]
      · intro hout
        simp [runNetwork, h, hq] at hout
    · have hstate : lookupNet (runNetwork cfg s name prio).2.networks name =
          some { nd with refcount := nd.refcount + 1 } := by
        by_cases ha : s.activeRequestCount < cfg.maxActiveRequests <;>
          simp [runNetwork, h, hq, ha, dispatchNextRun_networks,
            lookupNet_mapRefcount]
      constructor
      · intro hout
        exfalso
        apply hout
        by_cases ha : s.activeRequestCount < cfg.maxActiveRequests <;>
          simp [runNetwork, h, hq, ha]
      · intro _
        refine ⟨?_, ?_⟩
        · simp [refcountOf, hstate, h]
        · rw [executorCompletion_refcount _ _ _ hstate]
          simp [refcountOf, h]

/-- Witness for C1: on a host with one idle network `A`, a `runNetwork`
request is enqueued and, after the completion callback runs, the refcount of
`A` is back to its original value. -/
theorem runNetwork_refcount_balanced_witness :
    (runNetwork
          { executorThreads := 1, maxActiveRequests := 2, maxQueueSize := 4 }
          { networks := [("A", { rootName := "A" })] } "A" 0).1 =
        RunOutcome.enqueued ∧
      refcountOf
          (executorCompletion
            (runNetwork
              { executorThreads := 1, maxActiveRequests := 2,
                maxQueueSize := 4 }
              { networks := [("A", { rootName := "A" })] } "A" 0).2 "A") "A" =
        refcountOf { networks := [("A", { rootName := "A" })] } "A" :=
  ⟨by decide, ((runNetwork_refcount_balanced _ _ _ _).2 (by decide)).2⟩

/-- Claim C2, counterexample: a name that is only in `processingNetworks`
(the observable state while that network is still being added, since
publication into `networks_` and removal from `processingNetworks_` happen
under the same exclusive lock) makes `removeNetwork` return success, not
`RUNTIME_NET_BUSY`: the absence check on `networks_` runs first. -/
theorem removeNetwork_midAdd_returns_success :
    "A" ∈ ({ processingNetworks := ["A"] } : HostState).processingNetworks ∧
      (removeNetwork { processingNetworks := ["A"] } "A").1 ≠
        GlowResult.error ErrorCode.RUNTIME_NET_BUSY ∧
      (removeNetwork { processingNetworks := ["A"] } "A").1 =
        GlowResult.success := by
  decide

/-- Claim C2, amended: for a name that is registered in `networks`,
`removeNetwork` returns `RUNTIME_NET_BUSY` when the name is in
`processingNetworks` or its refcount is nonzero, and in that case the state
is unchanged (nothing is erased, no events are emitted); for a name absent
from `networks` it returns success and changes nothing, even when the name is
in `processingNetworks`; and a `NetworkData` with nonzero refcount is never
erased. -/
theorem removeNetwork_guards (s : HostState) (name : String)
    (nd : NetworkData) :
    (lookupNet s.networks name = some nd →
        (name ∈ s.processingNetworks ∨ nd.refcount ≠ 0) →
        removeNetwork s name =
          (GlowResult.error ErrorCode.RUNTIME_NET_BUSY, s, [])) ∧
    (lookupNet s.networks name = none →
        removeNetwork s name = (GlowResult.success, s, [])) ∧
    (lookupNet s.networks name = some nd → nd.refcount ≠ 0 →
        lookupNet (removeNetwork s name).2.1.networks name = some nd) := by
  refine ⟨?_, ?_, ?_⟩
  · intro h hbusy
    rcases hbusy with hp | hr
    · simp [removeNetwork, h, hp]
    · by_cases hp : name ∈ s.processingNetworks <;>
        simp [removeNetwork, h, hp, hr]
  · intro h
    simp [removeNetwork, h]
  · intro h hr
    by_cases hp : name ∈ s.processingNetworks <;>
      simp [removeNetwork, h, hp, hr]

/-- Witness for the amended C2 at a concrete state: a registered network with
one outstanding run is busy and is not erased. -/
theorem removeNetwork_guards_witness :
    removeNetwork { networks := [("A", { rootName := "A", refcount := 1 })] }
        "A" =
      (GlowResult.error ErrorCode.RUNTIME_NET_BUSY,
        { networks := [("A", { rootName := "A", refcount := 1 })] }, []) :=
  (removeNetwork_guards
      { networks := [("A", { rootName := "A", refcount := 1 })] } "A"
      { rootName := "A", refcount := 1 }).1
    (by decide) (Or.inr (by decide))

/-- Claim C3: when the admission queue already holds at least `maxQueueSize`
requests, `runNetwork` on a registered network refuses the request inline
with `RUNTIME_REQUEST_REFUSED` and pushes nothing; consequently `runNetwork`
preserves the bound `inferQueue.length ≤ maxQueueSize`. -/
theorem runNetwork_queue_bound (cfg : HostConfig) (s : HostState)
    (name : String) (prio : Nat) :
    ((cfg.maxQueueSize ≤ s.inferQueue.length ∧
          (lookupNet s.networks name).isSome) →
        (runNetwork cfg s name prio).1 =
            RunOutcome.inlineError ErrorCode.RUNTIME_REQUEST_REFUSED ∧
          (runNetwork cfg s name prio).2.inferQueue = s.inferQueue) ∧
    (s.inferQueue.length ≤ cfg.maxQueueSize →
        (runNetwork cfg s name prio).2.inferQueue.length ≤
          cfg.maxQueueSize) := by
  constructor
  · rintro ⟨hq, hsome⟩
    rw [Option.isSome_iff_exists] at hsome
    obtain ⟨nd, h⟩ := hsome
    constructor
    · simp [runNetwork, h, hq]
    · simp [runNetwork, h, hq]
  · intro hlen
    cases h : lookupNet s.networks name with
    | none => simpa [runNetwork, h] using hlen
    | some nd =>
      by_cases hq : cfg.maxQueueSize ≤ s.inferQueue.length
      · simpa [runNetwork, h, hq] using hlen
      · by_cases ha : s.activeRequestCount < cfg.maxActiveRequests
        · simp [runNetwork, h, hq, ha]
          refine le_trans (dispatchNextRun_queue_length _) ?_
          simp
          omega
        · simp [runNetwork, h, hq, ha]
          omega

/-- Witness for C3: with `maxQueueSize = 1` and one queued request, a request
to the registered network `A` is refused and the queue is unchanged. -/
theorem runNetwork_queue_bound_witness :
    (runNetwork
          { executorThreads := 1, maxActiveRequests := 1, maxQueueSize := 1 }
          { networks := [("A", { rootName := "A" })],
            inferQueue := [{ networkName := "A" }] } "A" 0).1 =
        RunOutcome.inlineError ErrorCode.RUNTIME_REQUEST_REFUSED ∧
      (runNetwork
          { executorThreads := 1, maxActiveRequests := 1, maxQueueSize := 1 }
          { networks := [("A", { rootName := "A" })],
            inferQueue := [{ networkName := "A" }] } "A" 0).2.inferQueue =
        ({ networks := [("A", { rootName := "A" })],
           inferQueue := [{ networkName := "A" }] } : HostState).inferQueue :=
  (runNetwork_queue_bound _ _ _ _).1 ⟨by decide, by decide⟩

/-- Claim C4 (failing input): with one network `B` already registered, an
`addNetwork` of a module with function `A` under profile mode
(`quantMode == Profile`) hits the profile-mode precondition and returns
`RUNTIME_ERROR` while `A` is still in `processingNetworks` - the reserved
name is not released, contradicting the claim that every reserved name is
erased before any error return. -/
theorem addNetwork_profile_precondition_leaks_names :
    (addNetwork { executorThreads := 1, maxActiveRequests := 2, maxQueueSize := 4 }
        { profileMode := true } { functionNames := ["A"] }
        { networks := [("B", { rootName := "B" })] }).1 =
      GlowResult.error ErrorCode.RUNTIME_ERROR ∧
    "A" ∈ (addNetwork { executorThreads := 1, maxActiveRequests := 2, maxQueueSize := 4 }
        { profileMode := true } { functionNames := ["A"] }
        { networks := [("B", { rootName := "B" })] }).2.1.processingNetworks := by
  decide

/-- Claim C5, counterexample: with P2P and DRT both disabled and
`maxActiveRequests = 7`, the pool created for the DAG root has size 7 (always
`maxActiveRequests`), not the size 2 the claim predicts for the disabled
case. -/
theorem createPool_size_counterexample :
    (addNetwork { executorThreads := 1, maxActiveRequests := 7, maxQueueSize := 10 } {}
        { functionNames := ["A"], dagRoots := ["A"] } {}).2.2 =
      [HostEvent.createPool "A" 7] ∧
    specClaimedPoolSize
        { executorThreads := 1, maxActiveRequests := 7, maxQueueSize := 10 }
        false false = 2 ∧
    (7 : Nat) ≠ 2 := by
  decide

/-- Claim C5, amended: every executor pool created by `addNetwork` has size
`maxActiveRequests`, regardless of P2P/DRT; the P2P/DRT toggle instead
selects the partitioner's context count (`maxActiveRequests` when enabled,
else 2). -/
theorem createPool_size_always_maxActiveRequests (cfg : HostConfig)
    (cctx : CompilationContext) (env : AddEnv) (s : HostState)
    (e : HostEvent) :
    (e ∈ (addNetwork cfg cctx env s).2.2 →
        ∃ r, e = HostEvent.createPool r cfg.maxActiveRequests) ∧
    partitionerContextCount cfg cctx =
      (if cctx.enableP2P || cctx.enableDRT then cfg.maxActiveRequests
       else 2) := by
  constructor
  · intro he
    rcases addNetwork_events cfg cctx env s with hev | hev
    · rw [hev] at he
      simp at he
    · rw [hev] at he
      obtain ⟨r, _, hr⟩ := List.mem_map.mp he
      exact ⟨r, hr.symm⟩
  · rfl

/-- Witness for the amended C5: the pool event produced for root `A` under a
`maxActiveRequests = 7` configuration has size 7. -/
theorem createPool_size_always_maxActiveRequests_witness :
    ∃ r, HostEvent.createPool "A" 7 = HostEvent.createPool r 7 :=
  (createPool_size_always_maxActiveRequests
      { executorThreads := 1, maxActiveRequests := 7, maxQueueSize := 10 } {}
      { functionNames := ["A"], dagRoots := ["A"] } {}
      (HostEvent.createPool "A" 7)).1 (by decide)

/-- Claim C6: `dispatchNextRun` removes from the queue exactly the request
that every other queued request does not dispatch-before: it has maximal
priority, and among requests of equal priority the least `requestID`.
Consequently, for a queue whose requests all share one priority, the drain
order is sorted by `requestID` (submission order). -/
theorem dispatch_order_priority_then_requestID :
    (∀ (s : HostState) (r : InferRequest) (rest : List InferRequest),
        popBest s.inferQueue = some (r, rest) →
          dispatchNextRun s =
              { s with inferQueue := rest, inFlight := s.inFlight ++ [r] } ∧
            ∀ y ∈ rest,
              y.priority ≤ r.priority ∧
                (y.priority = r.priority → r.requestID ≤ y.requestID)) ∧
    (∀ (p : Nat) (q : List InferRequest),
        (∀ x ∈ q, x.priority = p) →
          (drainQueue q).Pairwise (fun a b => a.requestID ≤ b.requestID)) := by
  constructor
  · intro s r rest h
    constructor
    · simp [dispatchNextRun, h]
    · intro y hy
      have hb := popBest_some_best _ _ _ h y hy
      simp [InferRequest.dispatchBefore] at hb
      constructor
      · omega
      · intro he
        omega
  · intro p q hq
    unfold drainQueue
    exact drainQueueFuel_sorted p q.length q hq

/-- Witness for C6: draining three equal-priority requests with identifiers
2, 0, 1 yields them in ascending `requestID` order. -/
theorem dispatch_order_priority_then_requestID_witness :
    (drainQueue
        [{ networkName := "A", priority := 5, requestID := 2 },
         { networkName := "A", priority := 5, requestID := 0 },
         { networkName := "A", priority := 5, requestID := 1 }]).Pairwise
      (fun a b => a.requestID ≤ b.requestID) :=
  dispatch_order_priority_then_requestID.2 5 _ (by decide)

/-- Claim C7: the CPU backend's `isOpSupported` is total and matches the
spec's table on the listed rows.  `Add` and `Mul` are supported exactly when
all inputs and outputs share one of Float, Int8Q, Int32I, Int64I;
`Convolution` requires all-Float when the input is not quantized, else
all-Int8Q with the bias Int8Q or Int32Q; `Log`, `Tanh` and `Sigmoid` are
Float-only; `Quantize` maps Float to Int8Q or Int32Q; `Dequantize` maps
Int8Q to Float; and node kinds without a `case` label (here `FullyConnected`,
`Relu`, `Clip`) fall to the `default` arm and are unsupported for every
type assignment. -/
theorem cpu_isOpSupported_table :
    (∀ x y z : ElemKind,
        isOpSupported
            { kind := NodeKind.Add, inTys := [x, y], outTys := [z] } = true ↔
          (x = z ∧ y = z ∧
            (z = FloatTy ∨ z = Int8QTy ∨ z = Int32ITy ∨ z = Int64ITy))) ∧
    (∀ x y z : ElemKind,
        isOpSupported
            { kind := NodeKind.Mul, inTys := [x, y], outTys := [z] } = true ↔
          (x = z ∧ y = z ∧
            (z = FloatTy ∨ z = Int8QTy ∨ z = Int32ITy ∨ z = Int64ITy))) ∧
    (∀ i f b o : ElemKind,
        isOpSupported
            { kind := NodeKind.Convolution, inTys := [i, f, b],
              outTys := [o] } = true ↔
          ((i = FloatTy ∧ f = FloatTy ∧ b = FloatTy ∧ o = FloatTy) ∨
            (i = Int8QTy ∧ f = Int8QTy ∧ o = Int8QTy ∧
              (b = Int8QTy ∨ b = Int32QTy)))) ∧
    (∀ x y : ElemKind,
        isOpSupported
            { kind := NodeKind.Log, inTys := [x], outTys := [y] } = true ↔
          (x = FloatTy ∧ y = FloatTy)) ∧
    (∀ x y : ElemKind,
        isOpSupported
            { kind := NodeKind.Tanh, inTys := [x], outTys := [y] } = true ↔
          (x = FloatTy ∧ y = FloatTy)) ∧
    (∀ x y : ElemKind,
        isOpSupported
            { kind := NodeKind.Sigmoid, inTys := [x], outTys := [y] } = true ↔
          (x = FloatTy ∧ y = FloatTy)) ∧
    (∀ x y : ElemKind,
        isOpSupported
            { kind := NodeKind.Quantize, inTys := [x], outTys := [y] } =
            true ↔
          (x = FloatTy ∧ (y = Int8QTy ∨ y = Int32QTy))) ∧
    (∀ x y : ElemKind,
        isOpSupported
            { kind := NodeKind.Dequantize, inTys := [x], outTys := [y] } =
            true ↔
          (x = Int8QTy ∧ y = FloatTy)) ∧
    (∀ ins outs : List ElemKind,
        isOpSupported
            { kind := NodeKind.FullyConnected, inTys := ins,
              outTys := outs } = false ∧
          isOpSupported
              { kind := NodeKind.Relu, inTys := ins, outTys := outs } =
            false ∧
          isOpSupported
              { kind := NodeKind.Clip, inTys := ins, outTys := outs } =
            false) := by
  refine ⟨by decide, by decide, by decide, by decide, by decide, by decide,
    by decide, by decide, ?_⟩
  intro ins outs
  exact ⟨rfl, rfl, rfl⟩

/-- Witness for C7: a quantized convolution with Int32Q bias is supported. -/
theorem cpu_isOpSupported_table_witness :
    isOpSupported
        { kind := NodeKind.Convolution,
          inTys := [Int8QTy, Int8QTy, Int32QTy], outTys := [Int8QTy] } =
      true :=
  (cpu_isOpSupported_table.2.2.1 Int8QTy Int8QTy Int32QTy Int8QTy).mpr
    (Or.inr ⟨rfl, rfl, rfl, Or.inr rfl⟩)

/-- Claim C8: `removeNetwork` on a name that is not in the network registry
returns success and leaves the whole `HostState` unchanged, emitting no
events: no pool is freed, no eviction happens, no counters are refreshed. -/
theorem removeNetwork_unknown_noop (s : HostState) (name : String)
    (h : lookupNet s.networks name = none) :
    removeNetwork s name = (GlowResult.success, s, []) := by
  simp [removeNetwork, h]

/-- Witness for C8 on the empty host state and an unknown name. -/
theorem removeNetwork_unknown_noop_witness :
    removeNetwork {} "Z" = (GlowResult.success, {}, []) :=
  removeNetwork_unknown_noop {} "Z" (by decide)

/-- Claim C9: the counters produced by `exportMemoryCounters` (hence the
counters after `init`, after each `cleanupAddNetwork`, and after each
successful `removeNetwork`) satisfy used + available = max in the `uint64_t`
arithmetic in which they are computed; `cleanupAddNetwork` indeed installs
exactly these counters. -/
theorem exportMemoryCounters_conservation :
    (∀ devices : List DeviceManager,
        ((exportMemoryCounters devices).deviceMemoryUsed +
            (exportMemoryCounters devices).deviceMemoryAvailable) % W64 =
          (exportMemoryCounters devices).deviceMemoryMax) ∧
    (∀ (s : HostState) (names : List String),
        (cleanupAddNetwork s names).counters =
          exportMemoryCounters s.devices) := by
  refine ⟨?_, fun s names => rfl⟩
  intro devices
  have hmlt := sumMod64_lt (devices.map (fun d => d.maximumMemory))
  have halt := sumMod64_lt (devices.map (fun d => d.availableMemory))
  simp only [exportMemoryCounters]
  rw [Nat.mod_add_mod]
  have h2 : sumMod64 (devices.map (fun d => d.maximumMemory)) +
        (W64 - sumMod64 (devices.map (fun d => d.availableMemory))) +
        sumMod64 (devices.map (fun d => d.availableMemory)) =
      sumMod64 (devices.map (fun d => d.maximumMemory)) + W64 := by
    omega
  rw [h2, Nat.add_mod_right]
  exact Nat.mod_eq_of_lt hmlt

/-- Claim C10: a `QuantizeInst` passes verification exactly when its
destination is `Int8QTy`, its source is `FloatTy`, and the dimensions agree;
a `DequantizeInst` exactly when its destination is `FloatTy`, its source is
`Int8QTy`, and the dimensions agree.  In particular the Float-to-Int32Q
quantization that the CPU backend's node-level `isOpSupported` accepts is
rejected by the instruction verifier. -/
theorem quantize_instruction_verify_rules :
    (∀ dest src : IRValue,
        quantizeInstVerify dest src = true ↔
          (dest.elemKind = Int8QTy ∧ src.elemKind = FloatTy ∧
            dest.dims = src.dims)) ∧
    (∀ dest src : IRValue,
        dequantizeInstVerify dest src = true ↔
          (dest.elemKind = FloatTy ∧ src.elemKind = Int8QTy ∧
            dest.dims = src.dims)) ∧
    isOpSupported
        { kind := NodeKind.Quantize, inTys := [FloatTy],
          outTys := [Int32QTy] } = true ∧
    (∀ dims srcDims : List Nat,
        quantizeInstVerify { elemKind := Int32QTy, dims := dims }
          { elemKind := FloatTy, dims := srcDims } = false) := by
  refine ⟨?_, ?_, by decide, ?_⟩
  · intro dest src
    simp [quantizeInstVerify, and_assoc]
  · intro dest src
    simp [dequantizeInstVerify, and_assoc]
  · intro dims srcDims
    simp [quantizeInstVerify]

/-- Witness for C10: a well-formed Float-to-Int8Q quantization passes. -/
theorem quantize_instruction_verify_rules_witness :
    quantizeInstVerify { elemKind := Int8QTy, dims := [4] }
      { elemKind := FloatTy, dims := [4] } = true :=
  (quantize_instruction_verify_rules.1
      { elemKind := Int8QTy, dims := [4] }
      { elemKind := FloatTy, dims := [4] }).mpr ⟨rfl, rfl, rfl⟩

end GlowSpec
